import Mathlib

/-!
Verification development for the `core_v2` semantic-indexing core of the
sway language server (`src/sway-lsp/src/core_v2/`): the session state
machine (`session.rs`), the typed tree walker (`traverse_typed_tree.rs`)
and the error taxonomy (`error.rs`), shallowly embedded as executable
Lean definitions.  External collaborators of the core (the compiler's
`parse`, `pkg::check`, `BuildPlan::from_lock_file`, the filesystem) are
modelled as explicit inputs bundled in an `External` record, exactly at
the interface the source consumes them.
-/

namespace Sway

/-- A source span: start offset, end offset and source id, as in the
`sway_types` span underlying identifiers. -/
structure Span where
  start : Nat
  stop : Nat
  source_id : Nat
deriving DecidableEq, Repr

/-- An identifier occurrence: its text and its span. -/
structure Ident where
  name : String
  span : Span
deriving DecidableEq, Repr

/-- Modelled from the spec: `utils::token::to_ident_key` is not under
`src/`; §3 of the spec defines the Identifier Key as the structural pair
of the identifier's name and span, which is exactly our `Ident`, so key
construction is the identity. -/
def to_ident_key (i : Ident) : Ident := i

/- Generic association-map operations used to model both the
`HashMap<String, TextDocument>` document store and the `TokenMap`.
`mapInsert` replaces the value at an existing key and otherwise adds the
binding (the semantics of `HashMap::insert`); `mapGet` models
`HashMap::get`, `mapRemove` models `HashMap::remove`. -/

/-- First binding for a key, as `HashMap::get`. -/
def mapGet {α β : Type} [DecidableEq α] (m : List (α × β)) (k : α) : Option β :=
  (m.find? (fun p => decide (p.1 = k))).map (fun p => p.2)

/-- Insert a binding, replacing the binding of an existing key, as
`HashMap::insert`. -/
def mapInsert {α β : Type} [DecidableEq α] (m : List (α × β)) (k : α) (v : β) :
    List (α × β) :=
  match m with
  | [] => [(k, v)]
  | p :: rest => if p.1 = k then (k, v) :: rest else p :: mapInsert rest k v

/-- Remove the bindings of a key, as `HashMap::remove`. -/
def mapRemove {α β : Type} [DecidableEq α] (m : List (α × β)) (k : α) :
    List (α × β) :=
  m.filter (fun p => decide (¬ p.1 = k))

/-- Modelled from the spec: the untyped AST walked by
`traverse_parse_tree.rs` (not under `src/`).  Per §4.4 every
identifier-bearing sub-structure of a node produces exactly one entry,
inserted before the walker recurses into that sub-structure's own
children; we therefore model an untyped node as one identifier-bearing
position together with its child nodes. -/
inductive AstNode where
  | mk (name : Ident) (children : List AstNode)
deriving Repr

/-- Modelled from the spec: the syntactic-token payload, a reference to
the originating untyped AST node (§3, `SyntacticToken`). -/
inductive AstToken where
  | mk (node : AstNode)
deriving Repr

/- The typed AST, as consumed by `traverse_typed_tree.rs`.  Auxiliary
node payloads whose only field read by the walker is `name` are modelled
by that field (the walker clones them wholesale but never inspects the
rest). -/

/-- A typed function parameter; the walker reads `parameter.name`. -/
structure TypedFunctionParameter where
  name : Ident
deriving DecidableEq, Repr

/-- A trait interface-surface function; the walker reads `name`. -/
structure TypedTraitFn where
  name : Ident
deriving DecidableEq, Repr

/-- A typed struct field; the walker reads `field.name`. -/
structure TypedStructField where
  name : Ident
deriving DecidableEq, Repr

/-- A typed enum variant; the walker reads `variant.name`. -/
structure TypedEnumVariant where
  name : Ident
deriving DecidableEq, Repr

/-- A typed storage field; the walker reads `field.name`. -/
structure TypedStorageField where
  name : Ident
deriving DecidableEq, Repr

/-- A type-checked storage reassignment descriptor; the walker reads
`field.name`. -/
structure TypeCheckedStorageReassignDescriptor where
  name : Ident
deriving DecidableEq, Repr

/-- A call path: prefix segments and a suffix segment. -/
structure CallPath where
  prefixes : List Ident
  suffix : Ident
deriving DecidableEq, Repr

mutual

/-- A typed AST node (`TypedAstNode`), wrapping its content. -/
inductive TypedAstNode where
  | mk (content : TypedAstNodeContent)

/-- The content of a typed AST node (`TypedAstNodeContent`). -/
inductive TypedAstNodeContent where
  | ReturnStatement (expr : TypedExpression)
  | Declaration (decl : TypedDeclaration)
  | Expression (e : TypedExpression)
  | ImplicitReturnExpression (e : TypedExpression)
  | WhileLoop (w : TypedWhileLoop)
  | SideEffect

/-- A typed while loop (`TypedWhileLoop`): condition and body. -/
inductive TypedWhileLoop where
  | mk (condition : TypedExpression) (body : TypedCodeBlock)

/-- A typed code block (`TypedCodeBlock`): its `contents` nodes. -/
inductive TypedCodeBlock where
  | mk (contents : List TypedAstNode)

/-- A typed function declaration (`TypedFunctionDeclaration`): the
fields read by the walker are `name`, `body`, `parameters` and
`return_type_span`. -/
inductive TypedFunctionDeclaration where
  | mk (name : Ident) (body : TypedCodeBlock)
       (parameters : List TypedFunctionParameter) (return_type_span : Span)

/-- A typed reassignment (`TypedReassignment`): the fields read by the
walker are `lhs_base_name` and `rhs`. -/
inductive TypedReassignment where
  | mk (lhs_base_name : Ident) (rhs : TypedExpression)

/-- A typed trait-impl block (`TypedImplTrait`): `trait_name` and
`methods`. -/
inductive TypedImplTrait where
  | mk (trait_name : CallPath) (methods : List TypedFunctionDeclaration)

/-- A typed declaration (`TypedDeclaration`); each variant carries the
fields `handle_declaration` reads. -/
inductive TypedDeclaration where
  | VariableDeclaration (name : Ident) (body : TypedExpression)
  | ConstantDeclaration (name : Ident) (value : TypedExpression)
  | FunctionDeclaration (func : TypedFunctionDeclaration)
  | TraitDeclaration (name : Ident) (interface_surface : List TypedTraitFn)
  | StructDeclaration (name : Ident) (fields : List TypedStructField)
  | EnumDeclaration (name : Ident) (variants : List TypedEnumVariant)
  | Reassignment (r : TypedReassignment)
  | ImplTrait (impl : TypedImplTrait)
  | AbiDeclaration (name : Ident) (interface_surface : List TypedTraitFn)
  | GenericTypeForFunctionScope (name : Ident)
  | ErrorRecovery
  | StorageDeclaration (fields : List TypedStorageField)
  | StorageReassignment (fields : List TypeCheckedStorageReassignDescriptor)
      (rhs : TypedExpression)

/-- A typed expression (`TypedExpression`); the walker matches on its
`expression` variant and clones the expression wholesale. -/
inductive TypedExpression where
  | mk (expression : TypedExpressionVariant)

/-- The variants of a typed expression (`TypedExpressionVariant`); each
carries the fields `handle_expression` reads.  `contract_call_params`
is iterated by value, `arguments` is a list of named argument pairs,
struct-expression fields pair the field name with its value. -/
inductive TypedExpressionVariant where
  | Literal
  | FunctionApplication (call_path : CallPath)
      (contract_call_params : List TypedExpression)
      (arguments : List (Ident × TypedExpression))
      (function_body : TypedCodeBlock)
  | LazyOperator (lhs : TypedExpression) (rhs : TypedExpression)
  | VariableExpression (name : Ident)
  | Tuple (fields : List TypedExpression)
  | Array (contents : List TypedExpression)
  | ArrayIndex (pfx : TypedExpression) (index : TypedExpression)
  | StructExpression (struct_name : Ident)
      (fields : List (Ident × TypedExpression))
  | CodeBlock (block : TypedCodeBlock)
  | FunctionParameter
  | IfExp (condition : TypedExpression) (then_branch : TypedExpression)
      (else_branch : Option TypedExpression)
  | AsmExpression
  | StructFieldAccess (pfx : TypedExpression) (field_to_access : Ident)
  | TupleElemAccess (pfx : TypedExpression)
  | EnumInstantiation
  | AbiCast (abi_name : CallPath) (address : TypedExpression)
  | StorageAccess (fields : List Ident)
  | IntrinsicFunction (kind : TypedIntrinsicFunctionKind)
  | AbiName
  | EnumTag (exp : TypedExpression)
  | UnsafeDowncast (exp : TypedExpression) (variant_name : Ident)

/-- The typed intrinsic function kinds (`TypedIntrinsicFunctionKind`). -/
inductive TypedIntrinsicFunctionKind where
  | SizeOfVal (exp : TypedExpression)
  | SizeOfType
  | IsRefType
  | GetStorageKey

end

/-- The typed-token payload (`TypedAstToken` in `core_v2/token.rs`): the
sub-kind tags used by `traverse_typed_tree.rs`, each carrying the cloned
node data the source stores. -/
inductive TypedAstToken where
  | TypedDeclaration (d : TypedDeclaration)
  | TypedFunctionDeclaration (f : TypedFunctionDeclaration)
  | TypedFunctionParameter (p : TypedFunctionParameter)
  | TypedTraitFn (t : TypedTraitFn)
  | TypedStructField (f : TypedStructField)
  | TypedEnumVariant (v : TypedEnumVariant)
  | TypedReassignment (r : TypedReassignment)
  | TypedStorageField (f : TypedStorageField)
  | TypeCheckedStorageReassignDescriptor
      (d : TypeCheckedStorageReassignDescriptor)
  | TypedExpression (e : TypedExpression)

/-- Modelled from the spec: `core_v2/token.rs` is not under `src/`; §3
defines a Token Entry as the tagged union of a syntactic-node reference
and a typed-node reference, matching the `TokenType::Token` /
`TokenType::TypedToken` constructors used by the two walkers. -/
inductive TokenType where
  | Token (t : AstToken)
  | TypedToken (t : TypedAstToken)

/-- The Token Index (`TokenMap`): a map from identifier keys to token
entries. -/
abbrev TokenMap := List (Ident × TokenType)

/-- One insertion event `tokens.insert(key, value)` performed by a
walker, in program order. -/
abbrev Trace := List (Ident × TokenType)

/-- Replay a sequence of insertion events against a map, in order. -/
def insertList (tokens : TokenMap) (tr : Trace) : TokenMap :=
  tr.foldl (fun acc kv => mapInsert acc kv.1 kv.2) tokens

namespace traverse_typed_tree

mutual

/-- The insertions performed by `traverse_node` in
`traverse_typed_tree.rs`, in program order: the walker's effect on the
map is exactly `insertList` of this trace (each `tokens.insert` is one
singleton, each recursive call its sub-trace, concatenated in source
order). -/
def node_trace (node : TypedAstNode) : Trace :=
  match node with
  | .mk content =>
    match content with
    | .ReturnStatement expr => expr_trace expr
    | .Declaration declaration => decl_trace declaration
    | .Expression expression => expr_trace expression
    | .ImplicitReturnExpression expression => expr_trace expression
    | .WhileLoop while_loop => while_loop_trace while_loop
    | .SideEffect => []

/-- Trace of traversing a list of nodes in order (the source's `for node
in ... { traverse_node(node, tokens) }` loops). -/
def nodes_trace (nodes : List TypedAstNode) : Trace :=
  match nodes with
  | [] => []
  | node :: rest => node_trace node ++ nodes_trace rest

/-- The insertions performed by `handle_declaration`, in program
order. -/
def decl_trace (declaration : TypedDeclaration) : Trace :=
  match declaration with
  | .VariableDeclaration name body =>
    (to_ident_key name,
      TokenType.TypedToken (.TypedDeclaration declaration)) :: expr_trace body
  | .ConstantDeclaration name value =>
    (to_ident_key name,
      TokenType.TypedToken (.TypedDeclaration declaration)) :: expr_trace value
  | .FunctionDeclaration func =>
    match func with
    | .mk name body parameters _ =>
      (to_ident_key name,
        TokenType.TypedToken (.TypedFunctionDeclaration func))
        :: (code_block_trace body
            ++ parameters.map (fun parameter =>
                 (to_ident_key parameter.name,
                   TokenType.TypedToken (.TypedFunctionParameter parameter))))
  | .TraitDeclaration name interface_surface =>
    (to_ident_key name, TokenType.TypedToken (.TypedDeclaration declaration))
      :: interface_surface.map (fun train_fn =>
           (to_ident_key train_fn.name,
             TokenType.TypedToken (.TypedTraitFn train_fn)))
  | .StructDeclaration name fields =>
    (to_ident_key name, TokenType.TypedToken (.TypedDeclaration declaration))
      :: fields.map (fun field =>
           (to_ident_key field.name,
             TokenType.TypedToken (.TypedStructField field)))
  | .EnumDeclaration name variants =>
    (to_ident_key name, TokenType.TypedToken (.TypedDeclaration declaration))
      :: variants.map (fun variant =>
           (to_ident_key variant.name,
             TokenType.TypedToken (.TypedEnumVariant variant)))
  | .Reassignment r =>
    match r with
    | .mk lhs_base_name rhs =>
      expr_trace rhs
        ++ [(to_ident_key lhs_base_name,
              TokenType.TypedToken (.TypedReassignment r))]
  | .ImplTrait impl =>
    match impl with
    | .mk trait_name methods =>
      trait_name.prefixes.map (fun ident =>
          (to_ident_key ident,
            TokenType.TypedToken (.TypedDeclaration declaration)))
        ++ [(to_ident_key trait_name.suffix,
              TokenType.TypedToken (.TypedDeclaration declaration))]
        ++ methods_trace methods
  | .AbiDeclaration name interface_surface =>
    (to_ident_key name, TokenType.TypedToken (.TypedDeclaration declaration))
      :: interface_surface.map (fun trait_fn =>
           (to_ident_key trait_fn.name,
             TokenType.TypedToken (.TypedTraitFn trait_fn)))
  | .GenericTypeForFunctionScope name =>
    [(to_ident_key name, TokenType.TypedToken (.TypedDeclaration declaration))]
  | .ErrorRecovery => []
  | .StorageDeclaration fields =>
    fields.map (fun field =>
      (to_ident_key field.name,
        TokenType.TypedToken (.TypedStorageField field)))
  | .StorageReassignment fields rhs =>
    fields.map (fun field =>
        (to_ident_key field.name,
          TokenType.TypedToken (.TypeCheckedStorageReassignDescriptor field)))
      ++ expr_trace rhs

/-- Trace of the `ImplTrait` methods loop: for each method, its name,
then its body nodes, then its parameters, then the return-type ident
built with `Ident::new(method.return_type_span)` (whose text the model
leaves empty, the span being the key's discriminating part here). -/
def methods_trace (methods : List TypedFunctionDeclaration) : Trace :=
  match methods with
  | [] => []
  | method :: rest =>
    (match method with
     | .mk name body parameters return_type_span =>
       (to_ident_key name,
         TokenType.TypedToken (.TypedFunctionDeclaration method))
         :: (code_block_trace body
             ++ parameters.map (fun paramater =>
                  (to_ident_key paramater.name,
                    TokenType.TypedToken (.TypedFunctionParameter paramater)))
             ++ [(to_ident_key { name := "", span := return_type_span },
                   TokenType.TypedToken (.TypedFunctionDeclaration method))]))
      ++ methods_trace rest

/-- The insertions performed by `handle_expression`, in program
order. -/
def expr_trace (expression : TypedExpression) : Trace :=
  match expression with
  | .mk variant =>
    match variant with
    | .Literal => []
    | .FunctionApplication call_path contract_call_params arguments
        function_body =>
      call_path.prefixes.map (fun ident =>
          (to_ident_key ident,
            TokenType.TypedToken (.TypedExpression expression)))
        ++ [(to_ident_key call_path.suffix,
              TokenType.TypedToken (.TypedExpression expression))]
        ++ exprs_trace contract_call_params
        ++ args_trace arguments
        ++ code_block_trace function_body
    | .LazyOperator lhs rhs => expr_trace lhs ++ expr_trace rhs
    | .VariableExpression name =>
      [(to_ident_key name, TokenType.TypedToken (.TypedExpression expression))]
    | .Tuple fields => exprs_trace fields
    | .Array contents => exprs_trace contents
    | .ArrayIndex pfx index => expr_trace pfx ++ expr_trace index
    | .StructExpression struct_name fields =>
      (to_ident_key struct_name,
        TokenType.TypedToken (.TypedExpression expression))
        :: struct_fields_trace fields
    | .CodeBlock block => code_block_trace block
    | .FunctionParameter => []
    | .IfExp condition then_branch else_branch =>
      expr_trace condition ++ expr_trace then_branch
        ++ (match else_branch with
            | some e => expr_trace e
            | none => [])
    | .AsmExpression => []
    | .StructFieldAccess pfx field_to_access =>
      expr_trace pfx
        ++ [(to_ident_key field_to_access,
              TokenType.TypedToken (.TypedExpression expression))]
    | .TupleElemAccess pfx => expr_trace pfx
    | .EnumInstantiation => []
    | .AbiCast abi_name address =>
      abi_name.prefixes.map (fun ident =>
          (to_ident_key ident,
            TokenType.TypedToken (.TypedExpression expression)))
        ++ [(to_ident_key abi_name.suffix,
              TokenType.TypedToken (.TypedExpression expression))]
        ++ expr_trace address
    | .StorageAccess fields =>
      fields.map (fun field_name =>
        (to_ident_key field_name,
          TokenType.TypedToken (.TypedExpression expression)))
    | .IntrinsicFunction kind => intrinsic_trace kind
    | .AbiName => []
    | .EnumTag exp => expr_trace exp
    | .UnsafeDowncast exp variant_name =>
      expr_trace exp
        ++ [(to_ident_key variant_name,
              TokenType.TypedToken (.TypedExpression expression))]

/-- Trace of handling a list of expressions in order (tuple/array
fields, `contract_call_params.values()`). -/
def exprs_trace (exprs : List TypedExpression) : Trace :=
  match exprs with
  | [] => []
  | exp :: rest => expr_trace exp ++ exprs_trace rest

/-- Trace of the `FunctionApplication` arguments loop: for each
`(ident, exp)` pair, insert the named-argument ident (tagged with the
argument expression), then handle the expression. -/
def args_trace (arguments : List (Ident × TypedExpression)) : Trace :=
  match arguments with
  | [] => []
  | (ident, exp) :: rest =>
    (to_ident_key ident, TokenType.TypedToken (.TypedExpression exp))
      :: (expr_trace exp ++ args_trace rest)

/-- Trace of the `StructExpression` fields loop: for each field, insert
its name (tagged with the field's value expression), then handle the
value. -/
def struct_fields_trace (fields : List (Ident × TypedExpression)) : Trace :=
  match fields with
  | [] => []
  | (name, value) :: rest =>
    (to_ident_key name, TokenType.TypedToken (.TypedExpression value))
      :: (expr_trace value ++ struct_fields_trace rest)

/-- Trace of traversing the nodes of a code block. -/
def code_block_trace (block : TypedCodeBlock) : Trace :=
  match block with
  | .mk contents => nodes_trace contents

/-- The insertions performed by `handle_intrinsic_function`. -/
def intrinsic_trace (kind : TypedIntrinsicFunctionKind) : Trace :=
  match kind with
  | .SizeOfVal exp => expr_trace exp
  | .SizeOfType => []
  | .IsRefType => []
  | .GetStorageKey => []

/-- The insertions performed by `handle_while_loop`: condition first,
then the body nodes. -/
def while_loop_trace (while_loop : TypedWhileLoop) : Trace :=
  match while_loop with
  | .mk condition body => expr_trace condition ++ code_block_trace body

end

/-- `traverse_node` of `traverse_typed_tree.rs`: its effect on the token
map is the replay, in program order, of the insertions it performs. -/
def traverse_node (node : TypedAstNode) (tokens : TokenMap) : TokenMap :=
  insertList tokens (node_trace node)

/-- The `for node in ... { traverse_node(node, tokens) }` loop over a
list of typed nodes. -/
def traverse_nodes (nodes : List TypedAstNode) (tokens : TokenMap) : TokenMap :=
  insertList tokens (nodes_trace nodes)

/-- `handle_declaration` of `traverse_typed_tree.rs`, as its effect on
the token map. -/
def handle_declaration (declaration : TypedDeclaration) (tokens : TokenMap) :
    TokenMap :=
  insertList tokens (decl_trace declaration)

end traverse_typed_tree

namespace traverse_parse_tree

mutual

/-- Modelled from the spec: the insertions performed by
`traverse_parse_tree::traverse_node` (not under `src/`); §4.4: each
identifier-bearing sub-structure yields exactly one syntactic entry,
inserted before recursing into that sub-structure's children. -/
def node_trace (node : AstNode) : Trace :=
  match node with
  | .mk name children =>
    (to_ident_key name, TokenType.Token (AstToken.mk node))
      :: nodes_trace children

/-- Modelled from the spec: trace of walking a list of untyped nodes in
order. -/
def nodes_trace (nodes : List AstNode) : Trace :=
  match nodes with
  | [] => []
  | node :: rest => node_trace node ++ nodes_trace rest

end

/-- Modelled from the spec: `traverse_parse_tree::traverse_node`, as its
effect on the token map. -/
def traverse_node (node : AstNode) (tokens : TokenMap) : TokenMap :=
  insertList tokens (node_trace node)

/-- The `for node in &parse_program.root.tree.root_nodes { ... }` loop
of `parse_ast_to_tokens`. -/
def traverse_nodes (nodes : List AstNode) (tokens : TokenMap) : TokenMap :=
  insertList tokens (nodes_trace nodes)

end traverse_parse_tree

/-- A compiler warning, consumed opaquely. -/
structure CompileWarning where
  msg : String
deriving DecidableEq, Repr

/-- A compiler error, consumed opaquely. -/
structure CompileError where
  msg : String
deriving DecidableEq, Repr

/-- Diagnostic severity (§3: warning or error). -/
inductive Severity where
  | warning
  | err
deriving DecidableEq, Repr

/-- Modelled from the spec: a diagnostic as published to the protocol
layer (§3: severity plus message; `capabilities::diagnostic` is not
under `src/`). -/
structure Diagnostic where
  severity : Severity
  message : String
deriving DecidableEq, Repr

/-- Modelled from the spec:
`capabilities::diagnostic::get_diagnostics(warnings, errors)` (not under
`src/`) renders the compiler warnings and errors, in order, as the
session's diagnostics sequence. -/
def get_diagnostics (warnings : List CompileWarning)
    (errors : List CompileError) : List Diagnostic :=
  warnings.map (fun w => { severity := .warning, message := w.msg })
    ++ errors.map (fun e => { severity := .err, message := e.msg })

/-- The server error taxonomy, the `LspError` enum of
`core_v2/error.rs` (referred to as `ServerError` in `session.rs`). -/
inductive LspError where
  | BuildConfig
  | BuildConfigNotFound
  | ManifestFileNotFound
  | DocumentNotFound
  | DocumentAlreadyStored
  | FailedToParse (diagnostics : List Diagnostic)
deriving DecidableEq, Repr

/-- The `pkg::BuildConfig` literal constructed inside
`Session::build_config`. -/
structure PkgBuildConfig where
  print_ir : Bool
  print_finalized_asm : Bool
  print_intermediate_asm : Bool
  silent : Bool
deriving DecidableEq, Repr

/-- The opaque `sway_core::BuildConfig` produced by
`pkg::sway_build_config` (§3: treated as an input token to the
compiler, not inspected by the core). -/
structure BuildConfig where
  id : Nat
deriving DecidableEq, Repr

/-- The manifest bound to a session (`pkg::ManifestFile`); the core
reads `dir()` and `entry_path()`. -/
structure ManifestFile where
  dir : String
  entry_path : String
deriving DecidableEq, Repr

/-- The opaque `pkg::BuildPlan` read from the lock file. -/
structure BuildPlan where
  id : Nat
deriving DecidableEq, Repr

/-- The parse program of `sway_core::parse`; the session reads its
`root.tree.root_nodes`, modelled directly as that node list. -/
structure ParseProgram where
  root_nodes : List AstNode

/-- The `sway_core::CompileResult` of `parse`: an optional parse
program plus warnings and errors. -/
structure ParsedResult where
  value : Option ParseProgram
  warnings : List CompileWarning
  errors : List CompileError

/-- The typed program of a successful check; the session reads its
`root.all_nodes`, modelled directly as that node list. -/
structure TypedProgram where
  all_nodes : List TypedAstNode

/-- The `sway_core::CompileAstResult` returned by `pkg::check`. -/
inductive CompileAstResult where
  | Failure (warnings : List CompileWarning) (errors : List CompileError)
  | Success (typed_program : TypedProgram) (warnings : List CompileWarning)

/-- The filesystem as seen by `TextDocument::build_from_path`: the text
found at a path, when readable. -/
abbrev FileSystem := String → Option String

/-- The external collaborators consumed by the session (§1: the
compiler, manifest/lock-file resolution), at exactly the interface the
source calls.  `from_lock_file` and `check` return `none` to model the
`Err` the source `.unwrap()`s. -/
structure External where
  sway_build_config : String → String → PkgBuildConfig →
    Except Unit BuildConfig
  parse : String → BuildConfig → ParsedResult
  lock_path : String → String
  from_lock_file : String → Option BuildPlan
  check : BuildPlan → Option CompileAstResult

/-- The user configuration held by the session; not inspected by the
operations modelled here. -/
structure SwayConfig where
  options : Nat
deriving DecidableEq, Repr

/-- Modelled from the spec: `core_v2/document.rs` is not under `src/`;
§3 defines a Document as its uri and text, and `get_text` returns the
text. -/
structure TextDocument where
  uri : String
  text : String
deriving DecidableEq, Repr

/-- The document's text, `TextDocument::get_text`. -/
def TextDocument.get_text (d : TextDocument) : String := d.text

/-- Modelled from the spec: `TextDocument::build_from_path` builds the
document from the file found at the path, failing when the file cannot
be read. -/
def TextDocument.build_from_path (fs : FileSystem) (path : String) :
    Except LspError TextDocument :=
  match fs path with
  | some text => .ok { uri := path, text := text }
  | none => .error .DocumentNotFound

/-- A document URL; the session keys its stores by `url.path()`. -/
structure Url where
  path : String
deriving DecidableEq, Repr

/-- The text document item carried by a `didOpen` notification. -/
structure TextDocumentItem where
  uri : Url
  text : String
deriving DecidableEq, Repr

/-- The `DidOpenTextDocumentParams` of a `didOpen` notification. -/
structure DidOpenTextDocumentParams where
  text_document : TextDocumentItem
deriving DecidableEq, Repr

/-- The session state (`Session` in `session.rs`): document store,
optional manifest, token map, diagnostics and configuration. -/
structure Session where
  documents : List (String × TextDocument)
  manifest : Option ManifestFile
  token_map : TokenMap
  diagnostics : List Diagnostic
  config : SwayConfig

/-- `Session::new`: constructed empty. -/
def Session.new (config : SwayConfig) : Session :=
  { documents := [], manifest := none, token_map := [], diagnostics := [],
    config := config }

/-- `Session::build_config`: constructs the fixed `pkg::BuildConfig`
literal and, when a manifest is bound, derives the sway build config
from the manifest's dir and entry path, mapping a derivation error to
`LspError.BuildConfig`; without a manifest it fails with
`ManifestFileNotFound`. -/
def Session.build_config (s : Session) (ext : External) :
    Except LspError BuildConfig :=
  let build_config : PkgBuildConfig :=
    { print_ir := false, print_finalized_asm := false,
      print_intermediate_asm := false, silent := true }
  match s.manifest with
  | some manifest =>
    match ext.sway_build_config manifest.dir manifest.entry_path build_config with
    | .ok cfg => .ok cfg
    | .error _ => .error .BuildConfig
  | none => .error .ManifestFileNotFound

/-- `Session::parse_ast_to_tokens`: resolves the build config, parses
the text, traverses the untyped root nodes into the token map when a
tree was produced, and returns the parser's warnings and errors as
diagnostics; a build-config failure is `BuildConfigNotFound`.  The
returned session is the receiver after the `&mut self` mutations. -/
def Session.parse_ast_to_tokens (s : Session) (ext : External)
    (text : String) : Session × Except LspError (List Diagnostic) :=
  match s.build_config ext with
  | .ok sway_build_config =>
    let parsed_result := ext.parse text sway_build_config
    let tm :=
      match parsed_result.value with
      | some parse_program =>
        traverse_parse_tree.traverse_nodes parse_program.root_nodes s.token_map
      | none => s.token_map
    ({ s with token_map := tm },
      .ok (get_diagnostics parsed_result.warnings parsed_result.errors))
  | .error _ => (s, .error .BuildConfigNotFound)

/-- `Session::parse_ast_to_typed_tokens`: with a bound manifest, reads
the build plan from the lock file and runs `pkg::check`; both calls are
`.unwrap()`ed in the source, so a `none` result models the panic (the
whole call returns `none`).  On check failure it returns
`FailedToParse` with the typed diagnostics; on success it traverses the
typed nodes into the token map and returns the typed warnings.  Without
a manifest it fails with `BuildConfigNotFound`. -/
def Session.parse_ast_to_typed_tokens (s : Session) (ext : External) :
    Option (Session × Except LspError (List Diagnostic)) :=
  match s.manifest with
  | some manifest =>
    let lock_path := ext.lock_path manifest.dir
    match ext.from_lock_file lock_path with
    | none => none
    | some plan =>
      match ext.check plan with
      | none => none
      | some res =>
        match res with
        | .Failure warnings errors =>
          some (s, .error (.FailedToParse (get_diagnostics warnings errors)))
        | .Success typed_program warnings =>
          some
            ({ s with
                token_map :=
                  traverse_typed_tree.traverse_nodes typed_program.all_nodes
                    s.token_map },
              .ok (get_diagnostics warnings []))
  | none => some (s, .error .BuildConfigNotFound)

/-- `Session::parse_project`: clears the token map, runs stage 1 over
the stored document when present (recording its diagnostics on `Ok` and
only logging on `Err`), then unconditionally runs stage 2, whose `Ok`
diagnostics or `FailedToParse` diagnostics replace the session's
diagnostics (other stage-2 errors are only logged).  A `none` result
models the stage-2 `.unwrap()` panics. -/
def Session.parse_project (s : Session) (ext : External) (uri : Url) :
    Option Session :=
  let s0 : Session := { s with token_map := [] }
  let s1 : Session :=
    match mapGet s0.documents uri.path with
    | some document =>
      let text := document.get_text
      match s0.parse_ast_to_tokens ext text with
      | (s', .ok diagnostics) => { s' with diagnostics := diagnostics }
      | (s', .error _) => s'
    | none => s0
  match s1.parse_ast_to_typed_tokens ext with
  | none => none
  | some (s2, .ok diagnostics) => some { s2 with diagnostics := diagnostics }
  | some (s2, .error e) =>
    match e with
    | .FailedToParse diagnostics => some { s2 with diagnostics := diagnostics }
    | _ => some s2

/-- The value of `self.token_map` at the mutation sequence points of
`parse_project`: on entry, just after `self.token_map.clear()`
(session.rs line 74), after the stage-1 traversal, and after stage 2
completes (absent when stage 2 panics).  The map is mutated in place
through `&mut self` at each of these points. -/
def Session.parse_project_token_map_states (s : Session) (ext : External)
    (uri : Url) : List TokenMap :=
  let s0 : Session := { s with token_map := [] }
  let s1 : Session :=
    match mapGet s0.documents uri.path with
    | some document =>
      let text := document.get_text
      match s0.parse_ast_to_tokens ext text with
      | (s', .ok diagnostics) => { s' with diagnostics := diagnostics }
      | (s', .error _) => s'
    | none => s0
  [s.token_map, s0.token_map, s1.token_map]
    ++ (match s1.parse_ast_to_typed_tokens ext with
        | none => []
        | some (s2, _) => [s2.token_map])

/-- `Session::store_document`: builds the document from the filesystem
path of the notification's uri (the notification's own text is never
read), then unconditionally inserts it into the store, returning
`DocumentAlreadyStored` when the insert replaced an existing document;
a build failure is returned as-is without touching the store. -/
def Session.store_document (s : Session) (fs : FileSystem)
    (params : DidOpenTextDocumentParams) : Session × Except LspError Unit :=
  let uri := params.text_document.uri.path
  match TextDocument.build_from_path fs uri with
  | .ok text_document =>
    let previous := mapGet s.documents uri
    let documents := mapInsert s.documents uri text_document
    match previous with
    | none => ({ s with documents := documents }, .ok ())
    | some _ =>
      ({ s with documents := documents }, .error .DocumentAlreadyStored)
  | .error err => (s, .error err)

/-- `Session::remove_document`: removes and returns the stored document
for the url's path, or fails with `DocumentNotFound`. -/
def Session.remove_document (s : Session) (url : Url) :
    Session × Except LspError TextDocument :=
  match mapGet s.documents url.path with
  | some text_document =>
    ({ s with documents := mapRemove s.documents url.path }, .ok text_document)
  | none => (s, .error .DocumentNotFound)

/-- `Session.build_config` as a function of the one session field it
reads (the manifest); `Session.build_config s ext` is definitionally
`build_config_of s.manifest ext`. -/
def build_config_of (manifest : Option ManifestFile) (ext : External) :
    Except LspError BuildConfig :=
  match manifest with
  | some manifest =>
    match ext.sway_build_config manifest.dir manifest.entry_path
        { print_ir := false, print_finalized_asm := false,
          print_intermediate_asm := false, silent := true } with
    | .ok cfg => .ok cfg
    | .error _ => .error .BuildConfig
  | none => .error .ManifestFileNotFound

/-- The token map produced by stage 1 of `parse_project` (the cleared
map, populated by the syntactic traversal when the document is stored,
the build config resolves and a tree is produced), as a function of the
session fields stage 1 reads.  Used to characterize `parse_project`;
the connection is proved in `parse_project_fields`. -/
def stage1_token_map (documents : List (String × TextDocument))
    (manifest : Option ManifestFile) (ext : External) (uri : Url) :
    TokenMap :=
  match mapGet documents uri.path with
  | some document =>
    match build_config_of manifest ext with
    | .ok cfg =>
      match (ext.parse document.get_text cfg).value with
      | some prog => traverse_parse_tree.traverse_nodes prog.root_nodes []
      | none => []
    | .error _ => []
  | none => []

/-- The token map held by the session after a completed (non-panicking)
`parse_project`, as a function of the session fields it reads: the
stage-1 map, over which a successful stage 2 traverses the typed nodes
(a failed stage 2 adds nothing).  The connection is proved in
`parse_project_fields`. -/
def final_token_map (documents : List (String × TextDocument))
    (manifest : Option ManifestFile) (ext : External) (uri : Url) :
    TokenMap :=
  match manifest with
  | some man =>
    match ext.from_lock_file (ext.lock_path man.dir) with
    | some plan =>
      match ext.check plan with
      | some (.Failure _ _) => stage1_token_map documents manifest ext uri
      | some (.Success prog _) =>
        traverse_typed_tree.traverse_nodes prog.all_nodes
          (stage1_token_map documents manifest ext uri)
      | none => []
    | none => []
  | none => stage1_token_map documents manifest ext uri

/- Concrete inputs used by the closed counterexamples and by the
witnesses of the hypothesis-bearing theorems. -/

/-- A document stored before a duplicate `didOpen`. -/
def exampleDocOld : TextDocument := { uri := "/p", text := "old" }

/-- A session already holding a document under path `/p`. -/
def exampleStoreSession : Session :=
  { documents := [("/p", exampleDocOld)], manifest := none, token_map := [],
    diagnostics := [], config := { options := 0 } }

/-- A filesystem whose file at every path now reads `new`. -/
def exampleFs : FileSystem := fun _ => some "new"

/-- A `didOpen` notification for `/p` carrying client text that the
session never reads. -/
def exampleOpenParams : DidOpenTextDocumentParams :=
  { text_document := { uri := { path := "/p" }, text := "client text" } }

/-- A filesystem on which every read fails. -/
def unreadableFs : FileSystem := fun _ => none

/-- A session with a bound manifest and no stored documents. -/
def manifestSession : Session :=
  { documents := [], manifest := some { dir := "/proj", entry_path := "/proj/src/main.sw" },
    token_map := [], diagnostics := [], config := { options := 0 } }

/-- Externals for which the manifest's lock file cannot be read
(`BuildPlan::from_lock_file` returns `Err`). -/
def lockFailExt : External :=
  { sway_build_config := fun _ _ _ => .ok { id := 0 },
    parse := fun _ _ => { value := none, warnings := [], errors := [] },
    lock_path := fun d => d,
    from_lock_file := fun _ => none,
    check := fun _ => none }

/-- A generic-type-scope identifier inserted by the typed pass in the
small examples. -/
def gIdent : Ident := { name := "g", span := { start := 1, stop := 2, source_id := 0 } }

/-- Its declaration and node. -/
def gDecl : TypedDeclaration := .GenericTypeForFunctionScope gIdent

/-- A one-declaration typed tree. -/
def gNode : TypedAstNode := .mk (.Declaration gDecl)

/-- Externals whose type-check succeeds with the one-declaration typed
tree and no warnings. -/
def successExt : External :=
  { sway_build_config := fun _ _ _ => .ok { id := 0 },
    parse := fun _ _ => { value := none, warnings := [], errors := [] },
    lock_path := fun d => d,
    from_lock_file := fun _ => some { id := 0 },
    check := fun _ => some (.Success { all_nodes := [gNode] } []) }

/-- A stale token-map entry from a previous generation. -/
def staleIdent : Ident := { name := "stale", span := { start := 9, stop := 10, source_id := 0 } }

/-- A session with a bound manifest whose live index still holds the
previous generation. -/
def staleSession : Session :=
  { documents := [],
    manifest := some { dir := "/proj", entry_path := "/proj/src/main.sw" },
    token_map := [(staleIdent, .TypedToken (.TypedDeclaration .ErrorRecovery))],
    diagnostics := [], config := { options := 0 } }

/- The `fn add(a, b)` end-to-end example of C7: the typed function
declaration, its parameters, its body calling the core add operation on
the two parameters, the corresponding untyped tree, and the session and
externals that compile it. -/

/-- The `add` declaration-site identifier. -/
def add_name : Ident := { name := "add", span := { start := 0, stop := 3, source_id := 0 } }

/-- Parameter `a` at its declaration site. -/
def a_param : TypedFunctionParameter :=
  { name := { name := "a", span := { start := 4, stop := 5, source_id := 0 } } }

/-- Parameter `b` at its declaration site. -/
def b_param : TypedFunctionParameter :=
  { name := { name := "b", span := { start := 6, stop := 7, source_id := 0 } } }

/-- The use of `a` in the body. -/
def a_use : TypedExpression :=
  .mk (.VariableExpression { name := "a", span := { start := 14, stop := 15, source_id := 0 } })

/-- The use of `b` in the body. -/
def b_use : TypedExpression :=
  .mk (.VariableExpression { name := "b", span := { start := 16, stop := 17, source_id := 0 } })

/-- The desugared `a + b`: an application of `core::ops::add` to the
two variable uses. -/
def add_call : TypedExpression :=
  .mk (.FunctionApplication
    { prefixes := [{ name := "core", span := { start := 8, stop := 9, source_id := 0 } },
                   { name := "ops", span := { start := 10, stop := 11, source_id := 0 } }],
      suffix := { name := "add", span := { start := 12, stop := 13, source_id := 0 } } }
    []
    [({ name := "self", span := { start := 20, stop := 21, source_id := 1 } }, a_use),
     ({ name := "other", span := { start := 22, stop := 23, source_id := 1 } }, b_use)]
    (.mk []))

/-- The body of `add`. -/
def add_body : TypedCodeBlock := .mk [.mk (.ImplicitReturnExpression add_call)]

/-- The typed `add` function declaration. -/
def add_func : TypedFunctionDeclaration :=
  .mk add_name add_body [a_param, b_param] { start := 18, stop := 19, source_id := 0 }

/-- The typed tree of the one-file `add` project. -/
def add_typed_program : TypedProgram :=
  { all_nodes := [.mk (.Declaration (.FunctionDeclaration add_func))] }

/-- The untyped tree of the `add` file: the function name bearing the
two parameter identifiers, at the same declaration-site spans. -/
def add_ast : AstNode :=
  .mk add_name
    [.mk { name := "a", span := { start := 4, stop := 5, source_id := 0 } } [],
     .mk { name := "b", span := { start := 6, stop := 7, source_id := 0 } } []]

/-- The stored `add` document. -/
def add_doc : TextDocument :=
  { uri := "/p/main.sw", text := "fn add(a: u64, b: u64) -> u64 = a + b" }

/-- The session holding the `add` document with a bound manifest. -/
def add_session : Session :=
  { documents := [("/p/main.sw", add_doc)],
    manifest := some { dir := "/p", entry_path := "/p/main.sw" },
    token_map := [], diagnostics := [], config := { options := 0 } }

/-- The uri of the `add` document. -/
def add_uri : Url := { path := "/p/main.sw" }

/-- Externals that parse the `add` file to its untyped tree and
type-check it to its typed tree with no diagnostics. -/
def add_ext : External :=
  { sway_build_config := fun _ _ _ => .ok { id := 0 },
    parse := fun _ _ =>
      { value := some { root_nodes := [add_ast] }, warnings := [], errors := [] },
    lock_path := fun d => d,
    from_lock_file := fun _ => some { id := 0 },
    check := fun _ => some (.Success add_typed_program []) }

/-- Externals that parse the `add` file but whose type-check fails with
one typed error. -/
def typeFailExt : External :=
  { sway_build_config := fun _ _ _ => .ok { id := 0 },
    parse := fun _ _ =>
      { value := some { root_nodes := [add_ast] }, warnings := [], errors := [] },
    lock_path := fun d => d,
    from_lock_file := fun _ => some { id := 0 },
    check := fun _ => some (.Failure [] [{ msg := "type error" }]) }

/-- Externals whose syntactic parse produces no tree (one parse error)
while the project type-check still succeeds with one typed warning. -/
def noTreeExt : External :=
  { sway_build_config := fun _ _ _ => .ok { id := 0 },
    parse := fun _ _ =>
      { value := none, warnings := [], errors := [{ msg := "syntax error" }] },
    lock_path := fun d => d,
    from_lock_file := fun _ => some { id := 0 },
    check := fun _ => some (.Success { all_nodes := [gNode] } [{ msg := "tw" }]) }

/-- The session produced by running `parse_project` over
`manifestSession` with `successExt` (used to chain two reparses). -/
def rerunSession : Session :=
  { documents := [],
    manifest := some { dir := "/proj", entry_path := "/proj/src/main.sw" },
    token_map := [(gIdent, .TypedToken (.TypedDeclaration gDecl))],
    diagnostics := [], config := { options := 0 } }

/- Generic lemmas about the association-map operations. -/

theorem mapGet_cons {α β : Type} [DecidableEq α] (p : α × β)
    (m : List (α × β)) (k : α) :
    mapGet (p :: m) k = if p.1 = k then some p.2 else mapGet m k := by
  by_cases h : p.1 = k <;> simp [mapGet, List.find?_cons, h]

theorem mapRemove_cons {α β : Type} [DecidableEq α] (p : α × β)
    (m : List (α × β)) (k : α) :
    mapRemove (p :: m) k =
      if p.1 = k then mapRemove m k else p :: mapRemove m k := by
  by_cases h : p.1 = k <;> simp [mapRemove, List.filter_cons, h]

theorem mapGet_mapRemove_self {α β : Type} [DecidableEq α]
    (m : List (α × β)) (k : α) : mapGet (mapRemove m k) k = none := by
  induction m with
  | nil => rfl
  | cons p m ih =>
    rw [mapRemove_cons]
    by_cases h : p.1 = k
    · rw [if_pos h]; exact ih
    · rw [if_neg h, mapGet_cons, if_neg h]; exact ih

theorem mapGet_mapRemove_ne {α β : Type} [DecidableEq α]
    (m : List (α × β)) (k k' : α) (h : ¬ k' = k) :
    mapGet (mapRemove m k) k' = mapGet m k' := by
  induction m with
  | nil => rfl
  | cons p m ih =>
    rw [mapRemove_cons, mapGet_cons]
    by_cases hp : p.1 = k
    · rw [if_pos hp]
      rw [if_neg (by rw [hp]; exact fun hk => h hk.symm)]
      exact ih
    · rw [if_neg hp, mapGet_cons]
      by_cases hq : p.1 = k' <;> simp [hq, ih]

/-- `Session.build_config` with its `let` inlined, for case analysis. -/
theorem build_config_eq (s : Session) (ext : External) :
    Session.build_config s ext =
      match s.manifest with
      | some manifest =>
        match ext.sway_build_config manifest.dir manifest.entry_path
            { print_ir := false, print_finalized_asm := false,
              print_intermediate_asm := false, silent := true } with
        | .ok cfg => .ok cfg
        | .error _ => .error .BuildConfig
      | none => .error .ManifestFileNotFound := rfl

/-- C6: the build-configuration resolver fails with
`ManifestFileNotFound` exactly when the session has no bound manifest,
fails with `BuildConfig` exactly when a manifest is bound but the
compiler rejects deriving a configuration from it, succeeds with the
derived configuration otherwise, and is a pure function of the
session's manifest (two sessions agreeing on the manifest get the same
result; the session itself is never touched). -/
theorem build_config_characterization (s : Session) (ext : External) :
    (Session.build_config s ext = .error .ManifestFileNotFound ↔
      s.manifest = none)
    ∧ (Session.build_config s ext = .error .BuildConfig ↔
        ∃ man, s.manifest = some man ∧
          ∃ e, ext.sway_build_config man.dir man.entry_path
              { print_ir := false, print_finalized_asm := false,
                print_intermediate_asm := false, silent := true } = .error e)
    ∧ (∀ man cfg, s.manifest = some man →
        ext.sway_build_config man.dir man.entry_path
            { print_ir := false, print_finalized_asm := false,
              print_intermediate_asm := false, silent := true } = .ok cfg →
        Session.build_config s ext = .ok cfg)
    ∧ (∀ t : Session, s.manifest = t.manifest →
        Session.build_config s ext = Session.build_config t ext) := by
  have hpure : ∀ t : Session, s.manifest = t.manifest →
      Session.build_config s ext = Session.build_config t ext := by
    intro t ht
    rw [build_config_eq, build_config_eq, ← ht]
  refine ⟨?_, ?_, ?_, hpure⟩
  · rw [build_config_eq]
    rcases hm : s.manifest with _ | man
    · simp
    · rcases hc : ext.sway_build_config man.dir man.entry_path
          { print_ir := false, print_finalized_asm := false,
            print_intermediate_asm := false, silent := true } with e | cfg
      · simp [hc]
      · simp [hc]
  · rw [build_config_eq]
    rcases hm : s.manifest with _ | man
    · simp
    · rcases hc : ext.sway_build_config man.dir man.entry_path
          { print_ir := false, print_finalized_asm := false,
            print_intermediate_asm := false, silent := true } with e | cfg
      · simp [hc]
      · simp [hc]
  · intro man cfg hman hc
    simp [build_config_eq, hman, hc]

/-- C6 witness: on a session with a bound manifest and externals that
derive configuration 3, the resolver succeeds with that configuration,
and it is invariant under changing the other session fields. -/
theorem build_config_characterization_witness :
    Session.build_config manifestSession lockFailExt = .ok { id := 0 }
    ∧ Session.build_config manifestSession lockFailExt
        = Session.build_config rerunSession lockFailExt := by
  have h := build_config_characterization manifestSession lockFailExt
  exact ⟨h.2.2.1 { dir := "/proj", entry_path := "/proj/src/main.sw" }
      { id := 0 } rfl rfl,
    h.2.2.2 rerunSession rfl⟩

/-- C9: `remove_document` on an absent URI returns `DocumentNotFound`
and returns the session's document store unchanged; on a present URI it
returns exactly the stored document and removes exactly that binding
(the key becomes absent, every other key is untouched). -/
theorem remove_document_cases (s : Session) (url : Url) :
    (mapGet s.documents url.path = none →
      Session.remove_document s url = (s, .error .DocumentNotFound))
    ∧ (∀ d, mapGet s.documents url.path = some d →
        Session.remove_document s url =
          ({ s with documents := mapRemove s.documents url.path }, .ok d)
        ∧ mapGet (mapRemove s.documents url.path) url.path = none
        ∧ ∀ k, ¬ k = url.path →
            mapGet (mapRemove s.documents url.path) k = mapGet s.documents k) := by
  constructor
  · intro h
    simp [Session.remove_document, h]
  · intro d h
    exact ⟨by simp [Session.remove_document, h],
      mapGet_mapRemove_self _ _,
      fun k hk => mapGet_mapRemove_ne _ _ _ hk⟩

/-- C9 witness: removing `/q` (absent) from the example session fails
with `DocumentNotFound` leaving the store as it was, and removing `/p`
(present) returns the stored document. -/
theorem remove_document_cases_witness :
    mapGet exampleStoreSession.documents "/q" = none
    ∧ Session.remove_document exampleStoreSession { path := "/q" }
        = (exampleStoreSession, .error .DocumentNotFound)
    ∧ mapGet exampleStoreSession.documents "/p" = some exampleDocOld
    ∧ Session.remove_document exampleStoreSession { path := "/p" }
        = ({ exampleStoreSession with
              documents := mapRemove exampleStoreSession.documents "/p" },
            .ok exampleDocOld) := by
  refine ⟨rfl, ?_, rfl, ?_⟩
  · exact (remove_document_cases exampleStoreSession { path := "/q" }).1 rfl
  · exact ((remove_document_cases exampleStoreSession { path := "/p" }).2
      exampleDocOld rfl).1

/-- C10: `store_document` ignores the text carried by the open
notification (any two notifications for the same URI behave
identically), returns the document-build error without touching the
store when building from the path fails, and otherwise stores exactly
the document built from the URI's filesystem path. -/
theorem store_document_reads_from_path (s : Session) (fs : FileSystem)
    (params : DidOpenTextDocumentParams) :
    (∀ t, Session.store_document s fs
        { params with
            text_document := { params.text_document with text := t } }
      = Session.store_document s fs params)
    ∧ (∀ e,
        TextDocument.build_from_path fs params.text_document.uri.path = .error e →
        Session.store_document s fs params = (s, .error e))
    ∧ (∀ td,
        TextDocument.build_from_path fs params.text_document.uri.path = .ok td →
        (Session.store_document s fs params).1.documents
          = mapInsert s.documents params.text_document.uri.path td) := by
  refine ⟨fun t => rfl, ?_, ?_⟩
  · intro e h
    simp [Session.store_document, h]
  · intro td h
    rcases hp : mapGet s.documents params.text_document.uri.path with _ | d <;>
      simp [Session.store_document, h, hp]

/-- C10 witness: with the example filesystem the stored document's text
comes from the file (`new`), not from the notification (`client
text`), and with the unreadable filesystem the build error is returned
and nothing is inserted. -/
theorem store_document_reads_from_path_witness :
    TextDocument.build_from_path exampleFs "/p" = .ok { uri := "/p", text := "new" }
    ∧ (Session.store_document (Session.new { options := 0 }) exampleFs
        exampleOpenParams).1.documents
      = mapInsert (Session.new { options := 0 }).documents "/p"
          { uri := "/p", text := "new" }
    ∧ TextDocument.build_from_path unreadableFs "/p" = .error .DocumentNotFound
    ∧ Session.store_document (Session.new { options := 0 }) unreadableFs
        exampleOpenParams
      = (Session.new { options := 0 }, .error .DocumentNotFound) := by
  refine ⟨rfl, ?_, rfl, ?_⟩
  · exact (store_document_reads_from_path (Session.new { options := 0 })
      exampleFs exampleOpenParams).2.2 { uri := "/p", text := "new" } rfl
  · exact (store_document_reads_from_path (Session.new { options := 0 })
      unreadableFs exampleOpenParams).2.1 .DocumentNotFound rfl

/-- C2 counterexample: a second `store_document` for the already-stored
path `/p` does return `DocumentAlreadyStored`, but the session state is
mutated: the stored document is replaced by the one rebuilt from the
filesystem, whose text `new` differs from the original `old`. -/
theorem store_document_duplicate_mutates_store :
    (Session.store_document exampleStoreSession exampleFs exampleOpenParams).2
        = .error .DocumentAlreadyStored
    ∧ (Session.store_document exampleStoreSession exampleFs
          exampleOpenParams).1.documents
        = [("/p", { uri := "/p", text := "new" })]
    ∧ mapGet (Session.store_document exampleStoreSession exampleFs
          exampleOpenParams).1.documents "/p"
        ≠ mapGet exampleStoreSession.documents "/p" := by
  refine ⟨rfl, rfl, ?_⟩
  decide

/-- C2 corrected: a second `store_document` on a stored URI returns
`DocumentAlreadyStored`, but instead of leaving the session unchanged
it replaces the stored document with the one freshly built from the
URI's filesystem path; only when building from the path fails is the
store left untouched. -/
theorem store_document_duplicate_replaces_document (s : Session)
    (fs : FileSystem) (params : DidOpenTextDocumentParams)
    (d0 : TextDocument)
    (hstored : mapGet s.documents params.text_document.uri.path = some d0) :
    (∀ td,
      TextDocument.build_from_path fs params.text_document.uri.path = .ok td →
      Session.store_document s fs params =
        ({ s with
            documents := mapInsert s.documents params.text_document.uri.path td },
          .error .DocumentAlreadyStored))
    ∧ (∀ e,
        TextDocument.build_from_path fs params.text_document.uri.path = .error e →
        Session.store_document s fs params = (s, .error e)) := by
  constructor
  · intro td h
    simp [Session.store_document, h, hstored]
  · intro e h
    simp [Session.store_document, h]

/-- C2 corrected witness: in the example session the duplicate open
replaces the stored text `old` with the filesystem's `new` while
reporting `DocumentAlreadyStored`. -/
theorem store_document_duplicate_replaces_document_witness :
    mapGet exampleStoreSession.documents "/p" = some exampleDocOld
    ∧ Session.store_document exampleStoreSession exampleFs exampleOpenParams
      = ({ exampleStoreSession with
            documents := mapInsert exampleStoreSession.documents "/p"
              { uri := "/p", text := "new" } },
          .error .DocumentAlreadyStored) := by
  refine ⟨rfl, ?_⟩
  exact (store_document_duplicate_replaces_document exampleStoreSession
    exampleFs exampleOpenParams exampleDocOld rfl).1
    { uri := "/p", text := "new" } rfl

/-- C4 at its failing input: with a bound manifest whose lock file
cannot be read, `parse_project` reaches the
`BuildPlan::from_lock_file(..).unwrap()` of session.rs line 128 and
panics (modelled as `none`) instead of returning normally with an error
or diagnostics, contradicting the propagation policy the claim
states. -/
theorem parse_project_panics_on_unreadable_lock_file :
    Session.parse_project manifestSession lockFailExt { path := "/p" } = none :=
  rfl

/-- C5 corrected: the index produced by a reparse is a complete
replacement computed from the current attempt alone — the result is
independent of whatever the live index previously held, so generations
are never mixed — but it is produced by clearing and inserting into the
live index in place: the live map's state sequence starts with the
previous generation and immediately passes through the cleared (empty)
map, so the no-partial-observation guarantee rests on the caller's
exclusive access for the whole reparse, not on an off-to-the-side build
that is swapped in. -/
theorem parse_project_wholesale_replacement (s : Session) (ext : External)
    (uri : Url) :
    (∀ tm1 tm2 : TokenMap,
      Session.parse_project { s with token_map := tm1 } ext uri
        = Session.parse_project { s with token_map := tm2 } ext uri)
    ∧ (Session.parse_project_token_map_states s ext uri).head? = some s.token_map
    ∧ (Session.parse_project_token_map_states s ext uri).get? 1 = some [] :=
  ⟨fun _ _ => rfl, rfl, rfl⟩

/-- C5 counterexample: reparsing `staleSession` takes the live index
through the states previous generation, cleared map, cleared map (no
stored document, so stage 1 inserts nothing), new generation; the
cleared intermediate state equals neither the previous nor the next
generation, so the index is not built off to the side and swapped. -/
theorem parse_project_live_index_partial_state :
    Session.parse_project_token_map_states staleSession successExt { path := "/p" }
      = [[(staleIdent, .TypedToken (.TypedDeclaration .ErrorRecovery))], [], [],
          [(gIdent, .TypedToken (.TypedDeclaration gDecl))]]
    ∧ ([] : TokenMap)
        ≠ [(staleIdent, .TypedToken (.TypedDeclaration .ErrorRecovery))]
    ∧ ([] : TokenMap) ≠ [(gIdent, .TypedToken (.TypedDeclaration gDecl))] :=
  ⟨rfl, by simp, by simp⟩

/-- Each member of a node list contributes its whole trace, contiguously,
to the trace of the list. -/
theorem node_trace_infix_of_mem (n : TypedAstNode) (ns : List TypedAstNode)
    (h : n ∈ ns) :
    traverse_typed_tree.node_trace n <:+: traverse_typed_tree.nodes_trace ns := by
  induction ns with
  | nil => cases h
  | cons m ms ih =>
    rcases List.mem_cons.mp h with rfl | h
    · rw [traverse_typed_tree.nodes_trace]
      exact (List.prefix_append _ _).isInfix
    · rw [traverse_typed_tree.nodes_trace]
      exact (ih h).trans (List.suffix_append _ _).isInfix

/-- C7: `handle_declaration` on a typed function declaration inserts the
function's name tagged as a typed function declaration and each
parameter tagged as a typed function parameter, and the trace of every
body node is replayed in full (every body node is traversed); the
walker's effect on the map is exactly the replay of this trace.  In
particular, for the one-file `fn add(a, b)` project the final index
maps `add` to a typed function declaration and `a` and `b` to typed
function parameters, with empty diagnostics. -/
theorem handle_declaration_function_entries :
    (∀ (name : Ident) (contents : List TypedAstNode)
        (parameters : List TypedFunctionParameter) (ret : Span),
      (to_ident_key name,
          TokenType.TypedToken (.TypedFunctionDeclaration
            (.mk name (.mk contents) parameters ret)))
        ∈ traverse_typed_tree.decl_trace
            (.FunctionDeclaration (.mk name (.mk contents) parameters ret))
      ∧ (∀ p ∈ parameters,
          (to_ident_key p.name,
              TokenType.TypedToken (.TypedFunctionParameter p))
            ∈ traverse_typed_tree.decl_trace
                (.FunctionDeclaration (.mk name (.mk contents) parameters ret)))
      ∧ (∀ n ∈ contents,
          traverse_typed_tree.node_trace n <:+:
            traverse_typed_tree.decl_trace
              (.FunctionDeclaration (.mk name (.mk contents) parameters ret))))
    ∧ (∀ (d : TypedDeclaration) (tokens : TokenMap),
        traverse_typed_tree.handle_declaration d tokens
          = insertList tokens (traverse_typed_tree.decl_trace d))
    ∧ (Session.parse_project add_session add_ext add_uri).map
        (fun s' => (mapGet s'.token_map add_name,
          mapGet s'.token_map a_param.name, mapGet s'.token_map b_param.name,
          s'.diagnostics))
      = some (some (.TypedToken (.TypedFunctionDeclaration add_func)),
          some (.TypedToken (.TypedFunctionParameter a_param)),
          some (.TypedToken (.TypedFunctionParameter b_param)), []) := by
  refine ⟨?_, fun d tokens => rfl, rfl⟩
  intro name contents parameters ret
  refine ⟨?_, ?_, ?_⟩
  · rw [traverse_typed_tree.decl_trace]
    exact List.mem_cons_self _ _
  · intro p hp
    rw [traverse_typed_tree.decl_trace]
    refine List.mem_cons_of_mem _ (List.mem_append_right _ ?_)
    exact List.mem_map_of_mem _ hp
  · intro n hn
    rw [traverse_typed_tree.decl_trace, traverse_typed_tree.code_block_trace]
    exact List.infix_cons
      ((node_trace_infix_of_mem n contents hn).trans
        (List.prefix_append _ _).isInfix)

/-- C7 witness: parameter `a` of the `add` example is a member of the
parameter list, and its typed-function-parameter entry is inserted by
`handle_declaration` on the `add` declaration. -/
theorem handle_declaration_function_entries_witness :
    a_param ∈ [a_param, b_param]
    ∧ (to_ident_key a_param.name,
        TokenType.TypedToken (.TypedFunctionParameter a_param))
      ∈ traverse_typed_tree.decl_trace (.FunctionDeclaration add_func) :=
  ⟨by simp,
    (handle_declaration_function_entries.1 add_name
        [TypedAstNode.mk (.ImplicitReturnExpression add_call)]
        [a_param, b_param]
        { start := 18, stop := 19, source_id := 0 }).2.1
      a_param (by simp)⟩

/-- C1: when stage 1 populated the index (document stored, build config
resolved, a tree produced) and stage 2 fails (`CompileAstResult`
`Failure`), `parse_project` completes with the token map exactly as the
stage-1 traversal built it over the cleared map — no typed entries
added, no stage-1 entries removed — and with the session's diagnostics
equal to the stage-2 diagnostics (the stage-1 diagnostics are
discarded). -/
theorem parse_project_typed_failure_keeps_stage1_index
    (s : Session) (ext : External) (uri : Url) (document : TextDocument)
    (cfg : BuildConfig) (prog : ParseProgram) (man : ManifestFile)
    (plan : BuildPlan) (warnings : List CompileWarning)
    (errors : List CompileError)
    (hdoc : mapGet s.documents uri.path = some document)
    (hman : s.manifest = some man)
    (hcfg : ext.sway_build_config man.dir man.entry_path
        { print_ir := false, print_finalized_asm := false,
          print_intermediate_asm := false, silent := true } = .ok cfg)
    (htree : (ext.parse document.get_text cfg).value = some prog)
    (hplan : ext.from_lock_file (ext.lock_path man.dir) = some plan)
    (hfail : ext.check plan = some (.Failure warnings errors)) :
    Session.parse_project s ext uri
      = some { s with
          token_map := traverse_parse_tree.traverse_nodes prog.root_nodes [],
          diagnostics := get_diagnostics warnings errors } := by
  simp only [Session.parse_project, Session.parse_ast_to_tokens,
    Session.parse_ast_to_typed_tokens, build_config_eq]
  simp [hdoc, hman, hcfg, htree, hplan, hfail]

/-- C1 witness: the `add` project with failing type-check keeps the
three syntactic entries and publishes the one typed error. -/
theorem parse_project_typed_failure_keeps_stage1_index_witness :
    mapGet add_session.documents add_uri.path = some add_doc
    ∧ typeFailExt.check { id := 0 }
        = some (.Failure [] [{ msg := "type error" }])
    ∧ Session.parse_project add_session typeFailExt add_uri
      = some { add_session with
          token_map :=
            traverse_parse_tree.traverse_nodes [add_ast] [],
          diagnostics := get_diagnostics [] [{ msg := "type error" }] } :=
  ⟨rfl, rfl,
    parse_project_typed_failure_keeps_stage1_index add_session typeFailExt
      add_uri add_doc { id := 0 } { root_nodes := [add_ast] }
      { dir := "/p", entry_path := "/p/main.sw" } { id := 0 }
      [] [{ msg := "type error" }] rfl rfl rfl rfl rfl rfl⟩

/-- C3 counterexample: on a stored document whose syntactic parse
produces no tree (one parse error), stage 2 is not skipped: the
type-check still runs, its typed entry appears in the index, and its
warning replaces the parser's diagnostics, so the untyped diagnostics
are not the session's published diagnostics. -/
theorem parse_project_no_tree_stage2_not_skipped :
    (noTreeExt.parse add_doc.get_text { id := 0 }).value = none
    ∧ (Session.parse_project add_session noTreeExt add_uri).map
        (fun s' => (s'.diagnostics, s'.token_map))
      = some ([{ severity := .warning, message := "tw" }],
          [(gIdent, .TypedToken (.TypedDeclaration gDecl))])
    ∧ get_diagnostics [] [{ msg := "syntax error" }]
        = [{ severity := .err, message := "syntax error" }]
    ∧ ([{ severity := Severity.warning, message := "tw" }] : List Diagnostic)
        ≠ [{ severity := .err, message := "syntax error" }] := by
  refine ⟨rfl, rfl, rfl, ?_⟩
  decide

/-- C3 corrected: when the syntactic parse of the stored document's
text produces no tree, stage 1 records the parser's returned
diagnostics and inserts nothing, but stage 2 is not skipped: it still
runs against the lock-file build plan, and when it completes its
diagnostics replace the parser's — the typed diagnostics on check
failure, the typed warnings on check success (which may also add typed
entries to the index). -/
theorem parse_project_no_tree_stage2_still_runs
    (s : Session) (ext : External) (uri : Url) (document : TextDocument)
    (cfg : BuildConfig) (man : ManifestFile) (plan : BuildPlan)
    (hdoc : mapGet s.documents uri.path = some document)
    (hman : s.manifest = some man)
    (hcfg : ext.sway_build_config man.dir man.entry_path
        { print_ir := false, print_finalized_asm := false,
          print_intermediate_asm := false, silent := true } = .ok cfg)
    (hnotree : (ext.parse document.get_text cfg).value = none)
    (hplan : ext.from_lock_file (ext.lock_path man.dir) = some plan) :
    (∀ warnings errors, ext.check plan = some (.Failure warnings errors) →
      Session.parse_project s ext uri
        = some { s with
            token_map := [],
            diagnostics := get_diagnostics warnings errors })
    ∧ (∀ prog warnings, ext.check plan = some (.Success prog warnings) →
      Session.parse_project s ext uri
        = some { s with
            token_map := traverse_typed_tree.traverse_nodes prog.all_nodes [],
            diagnostics := get_diagnostics warnings [] }) := by
  constructor
  · intro warnings errors hcheck
    simp only [Session.parse_project, Session.parse_ast_to_tokens,
      Session.parse_ast_to_typed_tokens, build_config_eq]
    simp [hdoc, hman, hcfg, hnotree, hplan, hcheck]
  · intro prog warnings hcheck
    simp only [Session.parse_project, Session.parse_ast_to_tokens,
      Session.parse_ast_to_typed_tokens, build_config_eq]
    simp [hdoc, hman, hcfg, hnotree, hplan, hcheck]

/-- C3 corrected witness: the `add` document with a failed parse and a
succeeding type-check ends with the typed entry and the typed warning
as diagnostics. -/
theorem parse_project_no_tree_stage2_still_runs_witness :
    mapGet add_session.documents add_uri.path = some add_doc
    ∧ (noTreeExt.parse add_doc.get_text { id := 0 }).value = none
    ∧ Session.parse_project add_session noTreeExt add_uri
      = some { add_session with
          token_map := traverse_typed_tree.traverse_nodes [gNode] [],
          diagnostics := get_diagnostics [{ msg := "tw" }] [] } :=
  ⟨rfl, rfl,
    (parse_project_no_tree_stage2_still_runs add_session noTreeExt add_uri
        add_doc { id := 0 } { dir := "/p", entry_path := "/p/main.sw" }
        { id := 0 } rfl rfl rfl rfl rfl).2
      { all_nodes := [gNode] } [{ msg := "tw" }] rfl⟩

/-- `Session.build_config` reads only the manifest. -/
theorem build_config_of_eq (s : Session) (ext : External) :
    Session.build_config s ext = build_config_of s.manifest ext := rfl

/-- Stage 2 of `parse_project`, starting from a session whose token map
and diagnostics stage 1 left as `tm` and `dgs`: the surviving session
keeps the documents and manifest, and its token map is `tm` unless a
successful check traverses the typed nodes over it (or a stage-2 panic
path was taken, which contradicts the `some` result). -/
theorem parse_project_fields_aux (s : Session) (ext : External)
    (tm : TokenMap) (dgs : List Diagnostic) (s' : Session)
    (h : (match Session.parse_ast_to_typed_tokens
            { s with token_map := tm, diagnostics := dgs } ext with
          | none => none
          | some (s2, .ok diagnostics) =>
            some { s2 with diagnostics := diagnostics }
          | some (s2, .error e) =>
            match e with
            | .FailedToParse diagnostics =>
              some { s2 with diagnostics := diagnostics }
            | _ => some s2) = some s') :
    s'.documents = s.documents ∧ s'.manifest = s.manifest ∧
    s'.token_map =
      match s.manifest with
      | some man =>
        match ext.from_lock_file (ext.lock_path man.dir) with
        | some plan =>
          match ext.check plan with
          | some (.Failure _ _) => tm
          | some (.Success prog _) =>
            traverse_typed_tree.traverse_nodes prog.all_nodes tm
          | none => []
        | none => []
      | none => tm := by
  simp only [Session.parse_ast_to_typed_tokens] at h
  rcases hman : s.manifest with _ | man
  · simp only [hman] at h ⊢
    obtain rfl := Option.some.inj h
    exact ⟨rfl, rfl, rfl⟩
  · simp only [hman] at h ⊢
    rcases hlock : ext.from_lock_file (ext.lock_path man.dir) with _ | plan
    · simp only [hlock] at h
      exact Option.noConfusion h
    · simp only [hlock] at h ⊢
      rcases hch : ext.check plan with _ | res
      · simp only [hch] at h
        exact Option.noConfusion h
      · simp only [hch] at h ⊢
        rcases res with ⟨w, e⟩ | ⟨prog, w⟩
        · simp only [] at h ⊢
          obtain rfl := Option.some.inj h
          exact ⟨rfl, rfl, rfl⟩
        · simp only [] at h ⊢
          obtain rfl := Option.some.inj h
          exact ⟨rfl, rfl, rfl⟩

/-- A completed `parse_project` preserves the document store and the
manifest, and its resulting token map is `final_token_map` of the
fields it reads — in particular it is a function of the document store,
the manifest and the externals only. -/
theorem parse_project_fields (s : Session) (ext : External) (uri : Url)
    (s' : Session) (h : Session.parse_project s ext uri = some s') :
    s'.documents = s.documents ∧ s'.manifest = s.manifest
      ∧ s'.token_map = final_token_map s.documents s.manifest ext uri := by
  simp only [Session.parse_project, Session.parse_ast_to_tokens,
    build_config_of_eq] at h
  rcases hdoc : mapGet s.documents uri.path with _ | document
  · simp only [hdoc] at h
    obtain ⟨h1, h2, h3⟩ := parse_project_fields_aux s ext [] s.diagnostics s' h
    refine ⟨h1, h2, ?_⟩
    rw [h3]
    simp [final_token_map, stage1_token_map, hdoc]
  · simp only [hdoc] at h
    rcases hbc : build_config_of s.manifest ext with e | cfg
    · simp only [hbc] at h
      obtain ⟨h1, h2, h3⟩ :=
        parse_project_fields_aux s ext [] s.diagnostics s' h
      refine ⟨h1, h2, ?_⟩
      rw [h3]
      simp [final_token_map, stage1_token_map, hdoc, hbc]
    · simp only [hbc] at h
      rcases hv : (ext.parse document.get_text cfg).value with _ | prog
      · simp only [hv] at h
        obtain ⟨h1, h2, h3⟩ :=
          parse_project_fields_aux s ext []
            (get_diagnostics (ext.parse document.get_text cfg).warnings
              (ext.parse document.get_text cfg).errors) s' h
        refine ⟨h1, h2, ?_⟩
        rw [h3]
        simp [final_token_map, stage1_token_map, hdoc, hbc, hv]
      · simp only [hv] at h
        obtain ⟨h1, h2, h3⟩ :=
          parse_project_fields_aux s ext
            (traverse_parse_tree.traverse_nodes prog.root_nodes [])
            (get_diagnostics (ext.parse document.get_text cfg).warnings
              (ext.parse document.get_text cfg).errors) s' h
        refine ⟨h1, h2, ?_⟩
        rw [h3]
        simp [final_token_map, stage1_token_map, hdoc, hbc, hv]

/-- C8: for a fixed session input (same stored documents, same
manifest, same externals), two successive reparses produce equal token
maps — in particular the same key set with the same entry tags. -/
theorem parse_project_idempotent_token_map (s s1 s2 : Session)
    (ext : External) (uri : Url)
    (h1 : Session.parse_project s ext uri = some s1)
    (h2 : Session.parse_project s1 ext uri = some s2) :
    s2.token_map = s1.token_map := by
  obtain ⟨hd1, hm1, ht1⟩ := parse_project_fields s ext uri s1 h1
  obtain ⟨_, _, ht2⟩ := parse_project_fields s1 ext uri s2 h2
  rw [ht2, hd1, hm1, ht1]

/-- C8 witness: reparsing the manifest-bound session twice with the
succeeding externals reproduces the same one-entry token map. -/
theorem parse_project_idempotent_token_map_witness :
    Session.parse_project manifestSession successExt { path := "/p" }
        = some rerunSession
    ∧ Session.parse_project rerunSession successExt { path := "/p" }
        = some rerunSession
    ∧ rerunSession.token_map = rerunSession.token_map :=
  ⟨rfl, rfl,
    parse_project_idempotent_token_map manifestSession rerunSession
      rerunSession successExt { path := "/p" } rfl rfl⟩

end Sway
